import Mathlib

/-!
Verification of the express-hotwire turbo-stream middleware
(`src/lib/hotwire-middleware.ts`) against its specification.

The middleware attaches a `turboStream` capability object to the response.
Each of its five action methods optionally renders a view fragment through
the host framework's rendering capability, wraps it in a fixed HTML
envelope, sets a content-type header and sends the envelope as the body.

Shallow embedding conventions:
* The external view renderer (`res.render`) is modelled by a capability
  function `RenderCap L E : String → Option L → Except E String` mapping a
  view name and optional locals either to the rendered HTML or an error.
  `L` is the type of locals mappings, `E` the type of render errors; both
  are kept abstract.
* Observable response effects (`res.setHeader`, calls into `res.render`,
  `res.send`) are recorded as an explicit event trace `List (Ev L)`, in
  execution order.
* The TypeScript field `partial` of `StreamOptions` is modelled by the
  field `part : Option String`; `none` models a missing/undefined value.
  The source branches on the JavaScript truthiness of `options?.partial`,
  which is falsy when `options` is undefined, when the field is undefined,
  and when it is the empty string; the embedding reproduces exactly that
  three-way falsiness.
* An action method is an `async` function; its returned promise is
  modelled by `Except E Unit` (rejected with the render error, or
  fulfilled).
-/

namespace ExpressHotwire

/-- The closed enumeration of turbo-stream actions
(`enum TurboStreamActions`). -/
inductive TurboStreamActions : Type where
  | append
  | prepend
  | replace
  | update
  | remove
deriving DecidableEq

/-- The string value carried by each enum member (in the source each
member is declared with an identical string literal value). -/
def TurboStreamActions.toStr : TurboStreamActions → String
  | .append => "append"
  | .prepend => "prepend"
  | .replace => "replace"
  | .update => "update"
  | .remove => "remove"

/-- `StreamOptions`: `part` models the TypeScript field `partial`
(`none` = undefined at runtime) and `locals` the optional locals
mapping. -/
structure StreamOptions (L : Type) : Type where
  part : Option String
  locals : Option L
deriving DecidableEq

/-- The external view-rendering capability (the framework's
`res.render`): given a view name and optional locals it either errors or
produces an HTML string. -/
def RenderCap (L E : Type) : Type :=
  String → Option L → Except E String

/-- Observable effects on the response, in execution order. -/
inductive Ev (L : Type) : Type where
  | setHeader (name : String) (values : List String)
  | renderCall (part : String) (locals : Option L)
  | send (body : String)
deriving DecidableEq

/-- Tests whether an event is a header-set. -/
def Ev.isSetHeader {L : Type} : Ev L → Bool
  | .setHeader _ _ => true
  | _ => false

/-- Tests whether an event is an invocation of the rendering
capability. -/
def Ev.isRenderCall {L : Type} : Ev L → Bool
  | .renderCall _ _ => true
  | _ => false

/-- Tests whether an event is a body write. -/
def Ev.isSend {L : Type} : Ev L → Bool
  | .send _ => true
  | _ => false

/-- The `render` helper of the source: wraps the callback-style
`res.render(partial, locals, (err, html) => ...)` in a promise that
rejects with `err` or resolves with `html`. -/
def render {L E : Type} (cap : RenderCap L E) (part : String)
    (locals : Option L) : Except E String :=
  match cap part locals with
  | Except.error err => Except.error err
  | Except.ok html => Except.ok html

/-- The envelope template literal of `stream` in the source, transcribed
character for character (including the leading newline, the indentation
and the trailing newline plus two spaces of the backtick literal). -/
def envelope (action target content : String) : String :=
  "\n  <turbo-stream action=\"" ++ action ++ "\" target=\"" ++ target ++
    "\">\n    <template>\n" ++ content ++
    "\n    </template>\n  </turbo-stream>\n  "

/-- The content computation of `stream`:
`options?.partial ? await render(res, options.partial, options.locals) : ''`.
Returns the trace of render invocations together with the fragment (or
the propagated render error). The nested match mirrors the truthiness of
`options?.partial`: falsy when `options` is undefined, when the field is
undefined, and when it is the empty string. -/
def renderedContent {L E : Type} (cap : RenderCap L E)
    (options : Option (StreamOptions L)) :
    List (Ev L) × Except E String :=
  match options with
  | none => ([], Except.ok "")
  | some o =>
    match o.part with
    | none => ([], Except.ok "")
    | some p =>
      if p = "" then ([], Except.ok "")
      else ([Ev.renderCall p o.locals], render cap p o.locals)

/-- The `stream` helper of the source: compute the fragment, then return
the envelope with action, target and fragment substituted. A render
failure propagates unchanged (the `await` rethrows it). -/
def stream {L E : Type} (cap : RenderCap L E) (target : String)
    (action : TurboStreamActions) (options : Option (StreamOptions L)) :
    List (Ev L) × Except E String :=
  match renderedContent cap options with
  | (evs, Except.error e) => (evs, Except.error e)
  | (evs, Except.ok content) =>
    (evs, Except.ok (envelope action.toStr target content))

/-- The exact header value string.  The source passes it to
`res.setHeader` as a one-element array. -/
def contentTypeValue : String := "text/html; turbo-stream; charset=utf-8"

/-- `streamActionHandler action` of the source: the per-action async
handler.  It first sets the content-type header, then evaluates
`await stream(...)` and finally sends the resulting body; if the render
inside `stream` fails, the `await` rethrows, `res.send` is never reached
and the promise rejects with the same error. -/
def streamActionHandler {L E : Type} (cap : RenderCap L E)
    (action : TurboStreamActions) (target : String)
    (options : Option (StreamOptions L)) :
    List (Ev L) × Except E Unit :=
  let hdr : Ev L := Ev.setHeader "Content-Type" [contentTypeValue]
  match stream cap target action options with
  | (evs, Except.error e) => (hdr :: evs, Except.error e)
  | (evs, Except.ok body) =>
    (hdr :: (evs ++ [Ev.send body]), Except.ok ())

/-- The `TurboStream` capability object: one entry point per action. -/
structure TurboStream (L E : Type) : Type where
  append : String → Option (StreamOptions L) → List (Ev L) × Except E Unit
  prepend : String → Option (StreamOptions L) → List (Ev L) × Except E Unit
  replace : String → Option (StreamOptions L) → List (Ev L) × Except E Unit
  update : String → Option (StreamOptions L) → List (Ev L) × Except E Unit
  remove : String → Option (StreamOptions L) → List (Ev L) × Except E Unit

/-- The `turboStream` object built inside `middleware`: each field is
`streamActionHandler` applied to the corresponding action. -/
def turboStreamObj {L E : Type} (cap : RenderCap L E) : TurboStream L E where
  append := streamActionHandler cap TurboStreamActions.append
  prepend := streamActionHandler cap TurboStreamActions.prepend
  replace := streamActionHandler cap TurboStreamActions.replace
  update := streamActionHandler cap TurboStreamActions.update
  remove := streamActionHandler cap TurboStreamActions.remove

/-- The response state seen by the middleware: the optional attached
capability object (`res.turboStream`). -/
structure Response (L E : Type) : Type where
  turbo : Option (TurboStream L E)

/-- The `middleware` function: it assigns `res.turboStream = turboStream`
and then calls `next()`.  The next-step continuation is modelled as a
function from the (mutated) response state to an arbitrary answer type;
`middleware` returns exactly one application of it, with no branching
before or after. -/
def middleware {L E : Type} {α : Type} (cap : RenderCap L E)
    (res : Response L E) (next : Response L E → α) : α :=
  next { res with turbo := some (turboStreamObj cap) }

/-- Index of the first event satisfying a predicate, if any. -/
def firstIdx {L : Type} (p : Ev L → Bool) : List (Ev L) → Option Nat
  | [] => none
  | e :: es => if p e then some 0 else (firstIdx p es).map (· + 1)

/-- `occursBefore p q tr` holds when some event satisfying `p` occurs, a
later one satisfying `q` occurs, and the first `p`-event strictly
precedes the first `q`-event in the trace. -/
def occursBefore {L : Type} (p q : Ev L → Bool) (tr : List (Ev L)) : Bool :=
  match firstIdx p tr, firstIdx q tr with
  | some i, some j => decide (i < j)
  | _, _ => false

/-- The §6.1 wire-format template, transcribed character for character
from the spec's fenced block (which shows no leading blank line and no
trailing indentation), with the three parameters substituted. -/
def specTemplate (action target content : String) : String :=
  "  <turbo-stream action=\"" ++ action ++ "\" target=\"" ++ target ++
    "\">\n    <template>\n" ++ content ++
    "\n    </template>\n  </turbo-stream>"

/-- Modelled from the spec: the single shared handler parameterized by
the action string, described in the §4.1 algorithm notes as the common
code path of the five action methods.  Identical to
`streamActionHandler` except that the action is supplied as the literal
string embedded in the envelope. -/
def sharedActionHandler {L E : Type} (cap : RenderCap L E)
    (actionStr : String) (target : String)
    (options : Option (StreamOptions L)) :
    List (Ev L) × Except E Unit :=
  let hdr : Ev L := Ev.setHeader "Content-Type" [contentTypeValue]
  match (match renderedContent cap options with
         | (evs, Except.error e) => (evs, Except.error e)
         | (evs, Except.ok content) =>
           (evs, Except.ok (envelope actionStr target content))) with
  | (evs, Except.error e) => (hdr :: evs, Except.error e)
  | (evs, Except.ok body) =>
    (hdr :: (evs ++ [Ev.send body]), Except.ok ())

/-- A concrete rendering capability used for witnesses and
counterexamples: renders every view name to a small div. -/
def capOk : RenderCap Nat String :=
  fun p _ => Except.ok ("<div>" ++ p ++ "</div>")

/-- A concrete rendering capability that fails on every view name. -/
def capErr : RenderCap Nat String :=
  fun p _ => Except.error ("no such view: " ++ p)

/-- The body produced by the source equals the §6.1 template preceded by
a newline and followed by a newline and two spaces. -/
theorem envelope_eq_specTemplate (A T C : String) :
    envelope A T C = "\n" ++ specTemplate A T C ++ "\n  " := by
  simp only [envelope, specTemplate, String.append_assoc]
  rw [← String.append_assoc "\n"]
  congr 1

/-- Claim C1 (counterexample): with no options, the append handler sends
a body, namely `envelope "append" "messages" ""`, and that body is not
the §6.1 template with the same substitutions: the source's template
literal additionally has a leading newline and a trailing newline plus
two spaces. -/
theorem C1_counterexample :
    (streamActionHandler capOk TurboStreamActions.append "messages" none).1
      = [Ev.setHeader "Content-Type" [contentTypeValue],
         Ev.send (envelope "append" "messages" "")]
    ∧ envelope "append" "messages" ""
        ≠ specTemplate "append" "messages" "" :=
  ⟨rfl, by decide⟩

/-- Claim C1 (amended): for every action, target and successfully
rendered fragment (empty when no partial is supplied), the handler
writes as the complete response body the §6.1 template with the action
name, the target string and the fragment substituted — with no escaping
applied to any of them — preceded by a newline and followed by a newline
and two spaces (the literal whitespace of the source's template
literal). -/
theorem C1_envelope_amended {L E : Type} (cap : RenderCap L E)
    (a : TurboStreamActions) (target : String)
    (options : Option (StreamOptions L)) (evs : List (Ev L))
    (content : String)
    (h : renderedContent cap options = (evs, Except.ok content)) :
    streamActionHandler cap a target options
      = (Ev.setHeader "Content-Type" [contentTypeValue]
          :: (evs ++ [Ev.send ("\n" ++ specTemplate a.toStr target content
                ++ "\n  ")]), Except.ok ()) := by
  simp [streamActionHandler, stream, h, envelope_eq_specTemplate]

/-- Claim C1 (witness): the amended statement evaluated for the append
action, target "messages" and no options. -/
theorem C1_envelope_amended_witness :
    streamActionHandler capOk TurboStreamActions.append "messages" none
      = (Ev.setHeader "Content-Type" [contentTypeValue]
          :: (([] : List (Ev Nat)) ++ [Ev.send ("\n"
                ++ specTemplate TurboStreamActions.append.toStr "messages" ""
                ++ "\n  ")]), Except.ok ()) :=
  C1_envelope_amended capOk TurboStreamActions.append "messages" none [] ""
    rfl

/-- Claim C2: when options carry a (truthy) partial and the rendering
capability resolves with `html`, the handler invokes the capability
exactly once, with exactly that partial and exactly the caller-supplied
locals, and `html` appears verbatim, unmodified, inside the `<template>`
element of the emitted envelope (the whole body being the envelope). -/
theorem C2_render_once_verbatim {L E : Type} (cap : RenderCap L E)
    (a : TurboStreamActions) (target p : String) (locals : Option L)
    (html : String) (hp : p ≠ "") (hcap : cap p locals = Except.ok html) :
    streamActionHandler cap a target (some ⟨some p, locals⟩)
      = ([Ev.setHeader "Content-Type" [contentTypeValue],
          Ev.renderCall p locals,
          Ev.send (envelope a.toStr target html)], Except.ok ())
    ∧ envelope a.toStr target html
      = ("\n  <turbo-stream action=\"" ++ a.toStr ++ "\" target=\""
          ++ target ++ "\">\n    <template>\n") ++ html
          ++ "\n    </template>\n  </turbo-stream>\n  " := by
  constructor
  · simp [streamActionHandler, stream, renderedContent, render, hp, hcap]
  · simp [envelope, String.append_assoc]

/-- Claim C2 (witness): evaluated for the append action with partial
"messages/show" and locals `some 7` under `capOk`. -/
theorem C2_render_once_verbatim_witness :
    streamActionHandler capOk TurboStreamActions.append "messages"
        (some ⟨some "messages/show", some 7⟩)
      = ([Ev.setHeader "Content-Type" [contentTypeValue],
          Ev.renderCall "messages/show" (some 7),
          Ev.send (envelope TurboStreamActions.append.toStr "messages"
            "<div>messages/show</div>")], Except.ok ()) :=
  (C2_render_once_verbatim capOk TurboStreamActions.append "messages"
      "messages/show" (some 7) "<div>messages/show</div>" (by decide)
      rfl).1

/-- Claim C3: when the rendering capability reports an error for the
given partial/locals pair, the handler's pending operation rejects with
that identical error value and no body write occurs in the trace. -/
theorem C3_render_error_propagates {L E : Type} (cap : RenderCap L E)
    (a : TurboStreamActions) (target p : String) (locals : Option L)
    (e : E) (hp : p ≠ "") (hcap : cap p locals = Except.error e) :
    streamActionHandler cap a target (some ⟨some p, locals⟩)
      = ([Ev.setHeader "Content-Type" [contentTypeValue],
          Ev.renderCall p locals], Except.error e)
    ∧ (streamActionHandler cap a target (some ⟨some p, locals⟩)).1.countP
        Ev.isSend = 0 := by
  have h1 : streamActionHandler cap a target (some ⟨some p, locals⟩)
      = ([Ev.setHeader "Content-Type" [contentTypeValue],
          Ev.renderCall p locals], Except.error e) := by
    simp [streamActionHandler, stream, renderedContent, render, hp, hcap]
  refine ⟨h1, ?_⟩
  rw [h1]
  simp [List.countP_cons, Ev.isSend]

/-- Claim C3 (witness): evaluated for the update action under the
always-failing capability `capErr`. -/
theorem C3_render_error_propagates_witness :
    streamActionHandler capErr TurboStreamActions.update "messages"
        (some ⟨some "messages/show", none⟩)
      = ([Ev.setHeader "Content-Type" [contentTypeValue],
          Ev.renderCall "messages/show" none],
         Except.error "no such view: messages/show")
    ∧ (streamActionHandler capErr TurboStreamActions.update "messages"
        (some ⟨some "messages/show", none⟩)).1.countP Ev.isSend = 0 :=
  C3_render_error_propagates capErr TurboStreamActions.update "messages"
    "messages/show" none "no such view: messages/show" (by decide) rfl

/-- Claim C4 (counterexample): in an invocation that does render a
partial, the render call does not occur before the header-set — the
source sets the header first, so the claimed order
render ≺ header-set ≺ body-write fails at this concrete input. -/
theorem C4_counterexample :
    (streamActionHandler capOk TurboStreamActions.append "messages"
        (some ⟨some "messages/show", some 7⟩)).1.countP Ev.isRenderCall = 1
    ∧ (streamActionHandler capOk TurboStreamActions.append "messages"
        (some ⟨some "messages/show", some 7⟩)).1.countP Ev.isSetHeader = 1
    ∧ occursBefore Ev.isRenderCall Ev.isSetHeader
        (streamActionHandler capOk TurboStreamActions.append "messages"
          (some ⟨some "messages/show", some 7⟩)).1 = false := by
  refine ⟨by decide, by decide, by decide⟩

/-- Claim C4 (amended): within one action invocation that renders a
partial, the effects are ordered header-set, then render, then (when
the operation succeeds) body-write: the source sets the content-type
header before awaiting the render, and sends the body after it. -/
theorem C4_order_amended {L E : Type} (cap : RenderCap L E)
    (a : TurboStreamActions) (target p : String) (locals : Option L)
    (hp : p ≠ "") :
    occursBefore Ev.isSetHeader Ev.isRenderCall
      (streamActionHandler cap a target (some ⟨some p, locals⟩)).1 = true
    ∧ ((streamActionHandler cap a target (some ⟨some p, locals⟩)).2
          = Except.ok () →
       occursBefore Ev.isRenderCall Ev.isSend
         (streamActionHandler cap a target (some ⟨some p, locals⟩)).1
           = true) := by
  rcases hcap : cap p locals with e | html
  · constructor
    · simp [streamActionHandler, stream, renderedContent, render, hp, hcap,
        occursBefore, firstIdx, Ev.isSetHeader, Ev.isRenderCall]
    · intro hok
      simp [streamActionHandler, stream, renderedContent, render, hp,
        hcap] at hok
  · constructor
    · simp [streamActionHandler, stream, renderedContent, render, hp, hcap,
        occursBefore, firstIdx, Ev.isSetHeader, Ev.isRenderCall]
    · intro _
      simp [streamActionHandler, stream, renderedContent, render, hp, hcap,
        occursBefore, firstIdx, Ev.isRenderCall, Ev.isSetHeader, Ev.isSend]

/-- Claim C4 (witness): the amended ordering evaluated for the append
action with a rendering partial under `capOk`. -/
theorem C4_order_amended_witness :
    occursBefore Ev.isSetHeader Ev.isRenderCall
      (streamActionHandler capOk TurboStreamActions.append "messages"
        (some ⟨some "messages/show", some 7⟩)).1 = true
    ∧ occursBefore Ev.isRenderCall Ev.isSend
        (streamActionHandler capOk TurboStreamActions.append "messages"
          (some ⟨some "messages/show", some 7⟩)).1 = true :=
  ⟨(C4_order_amended capOk TurboStreamActions.append "messages"
      "messages/show" (some 7) (by decide)).1,
   (C4_order_amended capOk TurboStreamActions.append "messages"
      "messages/show" (some 7) (by decide)).2 rfl⟩

/-- Claim C5: for every action and every invocation whose pending
operation succeeds (including the no-partial case), the content-type
header is set before the body is written. -/
theorem C5_header_before_send {L E : Type} (cap : RenderCap L E)
    (a : TurboStreamActions) (target : String)
    (options : Option (StreamOptions L))
    (hok : (streamActionHandler cap a target options).2 = Except.ok ()) :
    occursBefore Ev.isSetHeader Ev.isSend
      (streamActionHandler cap a target options).1 = true := by
  rcases options with _ | ⟨op, locs⟩
  · simp [streamActionHandler, stream, renderedContent, occursBefore,
      firstIdx, Ev.isSetHeader, Ev.isSend]
  · rcases op with _ | p
    · simp [streamActionHandler, stream, renderedContent, occursBefore,
        firstIdx, Ev.isSetHeader, Ev.isSend]
    · by_cases hp : p = ""
      · simp [streamActionHandler, stream, renderedContent, hp,
          occursBefore, firstIdx, Ev.isSetHeader, Ev.isSend]
      · rcases hcap : cap p locs with e | html
        · simp [streamActionHandler, stream, renderedContent, render, hp,
            hcap] at hok
        · simp [streamActionHandler, stream, renderedContent, render, hp,
            hcap, occursBefore, firstIdx, Ev.isSetHeader, Ev.isRenderCall,
            Ev.isSend]

/-- Claim C5 (witness): evaluated for the remove action with no
options. -/
theorem C5_header_before_send_witness :
    occursBefore Ev.isSetHeader Ev.isSend
      (streamActionHandler capOk TurboStreamActions.remove "messages"
        none).1 = true :=
  C5_header_before_send capOk TurboStreamActions.remove "messages" none rfl

/-- Claim C6: for every action method invocation, the trace begins with
exactly one header-set, whose name is Content-Type and whose value is
exactly the fixed string "text/html; turbo-stream; charset=utf-8" (the
source supplies it as a one-element array holding that string). -/
theorem C6_content_type_exact {L E : Type} (cap : RenderCap L E)
    (a : TurboStreamActions) (target : String)
    (options : Option (StreamOptions L)) :
    (streamActionHandler cap a target options).1.head?
      = some (Ev.setHeader "Content-Type"
          ["text/html; turbo-stream; charset=utf-8"])
    ∧ (streamActionHandler cap a target options).1.countP
        Ev.isSetHeader = 1 := by
  rcases options with _ | ⟨op, locs⟩
  · simp [streamActionHandler, stream, renderedContent, contentTypeValue,
      List.countP_cons, Ev.isSetHeader]
  · rcases op with _ | p
    · simp [streamActionHandler, stream, renderedContent, contentTypeValue,
        List.countP_cons, Ev.isSetHeader]
    · by_cases hp : p = ""
      · simp [streamActionHandler, stream, renderedContent, hp,
          contentTypeValue, List.countP_cons, Ev.isSetHeader]
      · rcases hcap : cap p locs with e | html
        · simp [streamActionHandler, stream, renderedContent, render, hp,
            hcap, contentTypeValue, List.countP_cons, Ev.isSetHeader]
        · simp [streamActionHandler, stream, renderedContent, render, hp,
            hcap, contentTypeValue, List.countP_cons, Ev.isSetHeader]

/-- Claim C7: when `options` is absent the fragment is empty and the
rendering capability is never invoked; moreover supplying options whose
partial is undefined (with any locals) is indistinguishable from
omitting options: both produce the same empty-fragment envelope. -/
theorem C7_absent_partial {L E : Type} (cap : RenderCap L E)
    (a : TurboStreamActions) (target : String) (locs : Option L) :
    streamActionHandler cap a target none
      = ([Ev.setHeader "Content-Type" [contentTypeValue],
          Ev.send (envelope a.toStr target "")], Except.ok ())
    ∧ streamActionHandler cap a target (some ⟨none, locs⟩)
      = streamActionHandler cap a target none
    ∧ (streamActionHandler cap a target (some ⟨none, locs⟩)).1.countP
        Ev.isRenderCall = 0 := by
  refine ⟨rfl, rfl, ?_⟩
  simp [streamActionHandler, stream, renderedContent, List.countP_cons,
    Ev.isRenderCall]

/-- Claim C8: every action method is the single shared handler applied
to that action's literal string: for all targets and options, the
behavior of the method for any action equals the shared handler at the
action's string value, so any two actions' methods agree except for the
literal action value embedded in the envelope. -/
theorem C8_single_shared_handler {L E : Type} (cap : RenderCap L E)
    (a : TurboStreamActions) (target : String)
    (options : Option (StreamOptions L)) :
    streamActionHandler cap a target options
      = sharedActionHandler cap a.toStr target options := by
  rcases h : renderedContent cap options with ⟨evs, r⟩
  rcases r with e | content <;>
    simp [streamActionHandler, sharedActionHandler, stream, h]

/-- Claim C9: for every response state and every next-step continuation,
the middleware returns exactly one application of the continuation to
the response with the capability object attached — so it attaches the
object and then invokes the continuation synchronously, unconditionally
and exactly once — and the attached object carries all five action
entry points, each being the per-action stream handler. -/
theorem C9_middleware_attach_then_next {L E α : Type} (cap : RenderCap L E)
    (res : Response L E) (next : Response L E → α) :
    middleware cap res next
      = next { res with turbo := some (turboStreamObj cap) }
    ∧ (turboStreamObj cap).append
        = streamActionHandler cap TurboStreamActions.append
    ∧ (turboStreamObj cap).prepend
        = streamActionHandler cap TurboStreamActions.prepend
    ∧ (turboStreamObj cap).replace
        = streamActionHandler cap TurboStreamActions.replace
    ∧ (turboStreamObj cap).update
        = streamActionHandler cap TurboStreamActions.update
    ∧ (turboStreamObj cap).remove
        = streamActionHandler cap TurboStreamActions.remove :=
  ⟨rfl, rfl, rfl, rfl, rfl, rfl⟩

/-- Claim C10: options whose partial is the empty string are treated
exactly like an absent partial — the handler's behavior coincides with
the no-options invocation and no render call is made — because the
source branches on the truthiness of `options?.partial`. -/
theorem C10_empty_string_partial {L E : Type} (cap : RenderCap L E)
    (a : TurboStreamActions) (target : String) (locs : Option L) :
    streamActionHandler cap a target (some ⟨some "", locs⟩)
      = streamActionHandler cap a target none
    ∧ (streamActionHandler cap a target (some ⟨some "", locs⟩)).1.countP
        Ev.isRenderCall = 0 := by
  constructor
  · simp [streamActionHandler, stream, renderedContent]
  · simp [streamActionHandler, stream, renderedContent, List.countP_cons,
      Ev.isRenderCall]

end ExpressHotwire
